import Mathlib

/-!
Verification of the field-validation core of the `homework_60` repository.

The repository defines Yup validation schemas for a contact form and a
newsletter form:

* `contactSchema` and `newsletterSchema` in `src/components/ContactForm.tsx`
  (the Formik-component variant, custom error messages on every rule);
* a second `contactSchema` / `newsletterSchema` pair in an unnamed source
  file (the `useFormik` variant) whose `postcode` and `contactPhone` rules
  consist of a required check only.

Each schema field is a chain of Yup tests, run in registration order;
Formik validates with `abortEarly: false` and its `yupToFormErrors` keeps
the first collected error per field, so the first failing test's message is
the one surfaced.  The shape tests used here — `min` (which skips only
null/undefined, not the empty string), `matches` (whose
`excludeEmptyString` option defaults to false and is never passed), and the
custom full-name test `(value) => !!value && ...` — all fail on the empty
string as well, and each is registered before `.required(...)`; on an
empty value it is therefore the shape message, not the required message,
that the program surfaces, and the required messages of those fields are
unreachable.  The one exception is `email()`, which internally excludes
the empty string from its pattern test, so an empty email fails only
`required` and yields the required message.

The embedding renders each field of each schema as a function from the
field value to `Option String` (`none` = the field is valid, `some msg` =
the field carries the surfaced message `msg`), translated test-for-test in
registration order from the schema declarations.  JavaScript string
primitives that the schemas use (`trim`, `split(" ")`, `.length`, the
digit class `\d`, Yup's email pattern) are modelled over `List Char` by
executable functions defined first.
-/

/-- The whitespace characters removed by JavaScript's `String.prototype.trim`:
the ECMAScript WhiteSpace and LineTerminator sets (tab, LF, VT, FF, CR,
space, NBSP, U+1680, U+2000–U+200A, U+2028, U+2029, U+202F, U+205F,
U+3000, U+FEFF). -/
def jsWhitespace (c : Char) : Bool :=
  c = ' ' || c = '\t' || c = '\n' || c = '\r' ||
  c.toNat = 11 || c.toNat = 12 || c.toNat = 160 ||
  c.toNat = 0x1680 || (0x2000 ≤ c.toNat && c.toNat ≤ 0x200A) ||
  c.toNat = 0x2028 || c.toNat = 0x2029 || c.toNat = 0x202F ||
  c.toNat = 0x205F || c.toNat = 0x3000 || c.toNat = 0xFEFF

/-- JavaScript `value.trim()`: remove leading and trailing whitespace. -/
def jsTrim (s : String) : String :=
  String.mk (((s.data.dropWhile jsWhitespace).reverse.dropWhile jsWhitespace).reverse)

/-- JavaScript `str.split(sep)` for a one-character separator `sep`:
the list of (possibly empty) chunks between occurrences of `sep`.
`jsSplitOn sep l` is never empty. -/
def jsSplitOn (sep : Char) : List Char → List (List Char)
  | [] => [[]]
  | c :: rest =>
    let ps := jsSplitOn sep rest
    if c = sep then
      [] :: ps
    else
      match ps with
      | [] => [[c]]
      | p :: ps2 => (c :: p) :: ps2

/-- JavaScript `.length` on strings: the number of UTF-16 code units
(characters above U+FFFF count as two). -/
def utf16Length (s : String) : Nat :=
  s.data.foldl (fun n c => n + (if c.toNat < 65536 then 1 else 2)) 0

/-- The test of `contactSchema.contactName` in `ContactForm.tsx`
(lines 34–39): `!!value && value.trim().split(" ").length >= 2`.
The split is on the literal space character `" "`.  The `!!value` conjunct
makes the test fail on the empty string. -/
def fullNameTest (s : String) : Bool :=
  s ≠ "" && 2 ≤ (jsSplitOn ' ' (jsTrim s).data).length

/-- JavaScript `\d` (no Unicode flag): the ASCII decimal digits. -/
def jsDigit (c : Char) : Bool :=
  '0' ≤ c && c ≤ '9'

/-- The regex `/^\d{4,10}$/` of `contactSchema.postcode` in
`ContactForm.tsx` line 32: 4 to 10 decimal digits and nothing else (for a
string of digits, code points and UTF-16 units coincide, so the code-point
length is the regex's count).  The empty string fails this pattern. -/
def postcodePattern (s : String) : Bool :=
  s.data.all jsDigit && 4 ≤ s.data.length && s.data.length ≤ 10

/-- The regex `/^\d{10,}$/` of `contactSchema.contactPhone` in
`ContactForm.tsx` line 42: at least 10 decimal digits and nothing else.
The empty string fails this pattern. -/
def phonePattern (s : String) : Bool :=
  s.data.all jsDigit && 10 ≤ s.data.length

/-- The characters Yup's email pattern allows in a dot-separated chunk of
the local part: ASCII letters (the pattern carries the case-insensitive
flag), digits, and the specials `! # $ % & ' * + - / = ? ^ _ \x60 \x7b | \x7d ~`
(listed here by code point to keep the source plain; the pattern's
non-ASCII ranges are omitted). -/
def emailLocalChar (c : Char) : Bool :=
  c.isAlpha || c.isDigit ||
  [33, 35, 36, 37, 38, 39, 42, 43, 45, 47, 61, 63, 94, 95,
   96, 123, 124, 125, 126].contains c.toNat

/-- Local part of Yup's email pattern (unquoted branch): one or more
dot-separated non-empty chunks of allowed characters. -/
def emailLocalOk (l : List Char) : Bool :=
  (jsSplitOn '.' l).all (fun p => !p.isEmpty && p.all emailLocalChar)

/-- The characters Yup's email pattern allows inside a domain label:
letters, digits, and `- . _ ~` (the pattern's non-ASCII ranges are
omitted, as for the local part). -/
def emailDomainMid (c : Char) : Bool :=
  c.isAlpha || c.isDigit || c = '-' || c = '.' || c = '_' || c = '~'

/-- Does the list contain a dot immediately preceded by a letter or digit
and immediately followed by a letter?  In Yup's domain grammar
`(label ".")+ tld` this is the split between the last label (which must
end in a letter or digit) and the final label (which must start with a
letter). -/
def hasLabelDot : List Char → Bool
  | a :: '.' :: b :: rest =>
    ((a.isAlpha || a.isDigit) && b.isAlpha) || hasLabelDot (b :: rest)
  | _ :: rest => hasLabelDot rest
  | [] => false

/-- Domain part of Yup's email pattern (named-host branch):
`(label ".")+ tld`, where a label is a single letter/digit or starts and
ends with a letter/digit with characters from `emailDomainMid` between,
and the final label is the same with letters at both ends (a single
letter suffices, so `b.c` is a valid domain).  Because a label's interior
may itself contain dots, this grammar is equivalent to: every character
is in the domain alphabet, the first character is a letter or digit, the
last character is a letter, and some dot is immediately preceded by a
letter or digit and immediately followed by a letter. -/
def emailDomainOk (l : List Char) : Bool :=
  l.all emailDomainMid &&
  (match l with
   | [] => false
   | c :: _ => c.isAlpha || c.isDigit) &&
  (match l.reverse with
   | [] => false
   | c :: _ => c.isAlpha) &&
  hasLabelDot l

/-- Modelled from the email format check of the Yup library used by both
schemas (`Yup.string().email(...)`): a single `@` separating a valid local
part from a valid named domain.  The quoted-local-part and bracketed
IP-address branches of Yup's pattern are omitted; no string this
development evaluates exercises them. -/
def isValidEmail (s : String) : Bool :=
  match jsSplitOn '@' s.data with
  | [lp, dom] => emailLocalOk lp && emailDomainOk dom
  | _ => false

/-- The `ContactFormValues` record (`ContactForm.tsx` lines 5–17).
`file : File | null` is modelled by the size attribute of the file when
present (`some size`) or `none` when null; `nda` is named `agreedToNda`
as in the specification's data model. -/
structure ContactRecord where
  companyName : String
  natureOfBusiness : String
  address : String
  postcode : String
  contactName : String
  contactPhone : String
  email : String
  linkedin : String
  idea : String
  file : Option Nat
  agreedToNda : Bool
deriving DecidableEq, Repr

/-- The `NewsletterFormValues` record (`ContactForm.tsx` lines 19–21). -/
structure NewsletterRecord where
  email : String
deriving DecidableEq, Repr

/-- The per-field outcome of validating a `ContactRecord`: for each field,
`none` when the field is valid and `some msg` when it carries error
message `msg`. -/
structure ValidationResult where
  companyName : Option String
  natureOfBusiness : Option String
  address : Option String
  postcode : Option String
  contactName : Option String
  contactPhone : Option String
  email : Option String
  linkedin : Option String
  idea : Option String
  file : Option String
  nda : Option String
deriving DecidableEq, Repr

/-- The overall validity flag derived from a `ValidationResult`: true iff
every field's error entry is absent. -/
def ValidationResult.isValid (v : ValidationResult) : Bool :=
  v.companyName.isNone && v.natureOfBusiness.isNone && v.address.isNone &&
  v.postcode.isNone && v.contactName.isNone && v.contactPhone.isNone &&
  v.email.isNone && v.linkedin.isNone && v.idea.isNone && v.file.isNone &&
  v.nda.isNone

/-- `companyName: Yup.string().min(2, "Company name must be at least 2
characters").required("Company name is required")`
(`ContactForm.tsx` lines 24–26; identical in the unnamed file).
`min(2)` is registered first and also fails on the empty string, so its
message is the one surfaced for every invalid value; the required branch
is kept in registration order but is unreachable (a string of length ≥ 2
is not empty). -/
def checkCompanyName (s : String) : Option String :=
  if 2 ≤ utf16Length s then
    if s = "" then some "Company name is required" else none
  else some "Company name must be at least 2 characters"

/-- `address: Yup.string().min(5, "Address must be at least 5
characters").required("Address is required")`
(`ContactForm.tsx` lines 28–30; identical in the unnamed file).  As for
companyName, `min(5)` fails first on the empty string and the required
branch is unreachable. -/
def checkAddress (s : String) : Option String :=
  if 5 ≤ utf16Length s then
    if s = "" then some "Address is required" else none
  else some "Address must be at least 5 characters"

/-- `postcode: Yup.string().matches(/^\d{4,10}$/, "Postcode must be 4–10
digits").required("Postcode is required")` (`ContactForm.tsx` lines 31–33).
`matches` is registered first and, with `excludeEmptyString` at its false
default, fails on the empty string too, so its message is the one surfaced
for every invalid value; the required branch is unreachable (a match has
at least 4 digits). -/
def checkPostcode (s : String) : Option String :=
  if postcodePattern s then
    if s = "" then some "Postcode is required" else none
  else some "Postcode must be 4–10 digits"

/-- `contactName: Yup.string().test("full-name", "Please enter at least
first and last name", (value) => !!value && value.trim().split(" ").length
>= 2).required("Contact name is required")`
(`ContactForm.tsx` lines 34–40; identical in the unnamed file).  The
custom test is registered first and its `!!value` conjunct fails on the
empty string, so its message is the one surfaced for every invalid value;
the required branch is unreachable. -/
def checkContactName (s : String) : Option String :=
  if fullNameTest s then
    if s = "" then some "Contact name is required" else none
  else some "Please enter at least first and last name"

/-- `contactPhone: Yup.string().matches(/^\d{10,}$/, "Contact phone must be
at least 10 digits").required("Contact phone is required")`
(`ContactForm.tsx` lines 41–43).  As for postcode, `matches` fails first
on the empty string and the required branch is unreachable. -/
def checkContactPhone (s : String) : Option String :=
  if phonePattern s then
    if s = "" then some "Contact phone is required" else none
  else some "Contact phone must be at least 10 digits"

/-- `email: Yup.string().email("Invalid email address").required("Email is
required")` (`ContactForm.tsx` lines 44–46; identical in the unnamed file).
`email()` is registered first but internally sets `excludeEmptyString:
true`, so it passes on the empty string and the required message fires
there; on a non-empty malformed value the email test's message is
surfaced. -/
def checkEmail (s : String) : Option String :=
  if s = "" then some "Email is required"
  else if isValidEmail s then none
  else some "Invalid email address"

/-- `idea: Yup.string().min(30, "Idea description must be at least 30
characters").required("Idea is required")`
(`ContactForm.tsx` lines 48–50; identical in the unnamed file).  As for
companyName, `min(30)` fails first on the empty string and the required
branch is unreachable. -/
def checkIdea (s : String) : Option String :=
  if 30 ≤ utf16Length s then
    if s = "" then some "Idea is required" else none
  else some "Idea description must be at least 30 characters"

/-- `file: Yup.mixed<File>().nullable().test("fileSize", "File size is too
large (max 10MB)", (value) => { if (!value) return true; return value
instanceof File && value.size <= 10 * 1024 * 1024; })`
(`ContactForm.tsx` lines 51–56; identical in the unnamed file).  A present
value is a `File` instance in the model, so the test reduces to the size
bound. -/
def checkFile (f : Option Nat) : Option String :=
  match f with
  | none => none
  | some size =>
    if size ≤ 10 * 1024 * 1024 then none
    else some "File size is too large (max 10MB)"

/-- `nda: Yup.boolean().oneOf([true], "You must agree to NDA").required("You
must agree to NDA")` (`ContactForm.tsx` lines 57–59; identical in the
unnamed file).  A supplied `false` fails the `oneOf([true])` whitelist;
both rules carry the same message, so the surfaced message is the same
either way. -/
def checkNda (b : Bool) : Option String :=
  if b then none else some "You must agree to NDA"

/-- `validateContact`: the `contactSchema` of `ContactForm.tsx`
(lines 23–60) applied to a record.  `natureOfBusiness` and `linkedin`
(lines 27 and 47) are bare `Yup.string()` with no rule, so their entries
are always absent. -/
def validateContact (r : ContactRecord) : ValidationResult where
  companyName := checkCompanyName r.companyName
  natureOfBusiness := none
  address := checkAddress r.address
  postcode := checkPostcode r.postcode
  contactName := checkContactName r.contactName
  contactPhone := checkContactPhone r.contactPhone
  email := checkEmail r.email
  linkedin := none
  idea := checkIdea r.idea
  file := checkFile r.file
  nda := checkNda r.agreedToNda

/-- The per-field outcome of validating a `NewsletterRecord`: the schema
has a single field, so no other field can carry an error. -/
structure NewsletterResult where
  email : Option String
deriving DecidableEq, Repr

/-- `newsletterSchema = Yup.object({ email: Yup.string().email("Invalid
email").required("Email is required") })` (`ContactForm.tsx` lines 62–64).
As for the contact email field, `email()` excludes the empty string, so
the required message fires on the empty string. -/
def validateNewsletter (r : NewsletterRecord) : NewsletterResult where
  email :=
    if r.email = "" then some "Email is required"
    else if isValidEmail r.email then none
    else some "Invalid email"

/-- The all-fields-valid record of the specification's end-to-end scenario
(idea is 30 copies of `x`). -/
def exampleRecord : ContactRecord where
  companyName := "Ac"
  natureOfBusiness := ""
  address := "123 Main St"
  postcode := "12345"
  contactName := "Jo Lee"
  contactPhone := "1234567890"
  email := "jo@x.com"
  linkedin := ""
  idea := "xxxxxxxxxxxxxxxxxxxxxxxxxxxxxx"
  file := none
  agreedToNda := true

/-- Step function for `wsTokens`: the Bool records whether the previous
character belonged to a token. -/
def wsTokensAux : Bool → List Char → Nat
  | _, [] => 0
  | inTok, c :: rest =>
    if jsWhitespace c then wsTokensAux false rest
    else if inTok then wsTokensAux true rest
    else 1 + wsTokensAux true rest

/-- The token count in the wording of the contactName rule of the
specification ("trimmed value splits on whitespace into ≥ 2 tokens"):
the number of maximal runs of non-whitespace characters.  Stated from the
specification's words, only to compare that wording with the code's split
on the space character. -/
def wsTokens (s : String) : Nat := wsTokensAux false s.data

/-- C1 (counterexample): two concrete divergences from the claim.  First,
the record whose contactName is "Jane\tDoe" (a tab between the two names)
has a non-empty contactName whose trimmed value splits on whitespace into
2 tokens, yet the validator rejects it: the code's test splits on the
space character only.  Second, the empty contactName does not carry
"Contact name is required": the full-name test also fails on the empty
string and is registered first, so its message is the one surfaced. -/
theorem contactName_whitespace_counterexample :
    ({ exampleRecord with contactName := "Jane\tDoe" } : ContactRecord).contactName ≠ "" ∧
    2 ≤ wsTokens (jsTrim ({ exampleRecord with contactName := "Jane\tDoe" } : ContactRecord).contactName) ∧
    (validateContact { exampleRecord with contactName := "Jane\tDoe" }).contactName =
      some "Please enter at least first and last name" ∧
    (validateContact { exampleRecord with contactName := "" }).contactName ≠
      some "Contact name is required" := by
  decide

/-- C1 (amended): for every ContactRecord, contactName is valid iff it is
non-empty and its trimmed value splits on the space character into at
least 2 parts; "Jane Doe" is valid, "Jane" is invalid, "  Jane   Doe  "
is valid; every invalid value — the empty string included — surfaces
"Please enter at least first and last name" (the full-name test fails on
the empty string too and is registered before required, so "Contact name
is required" is never surfaced). -/
theorem contactName_spec (r : ContactRecord) :
    ((validateContact r).contactName = none ↔
      r.contactName ≠ "" ∧ 2 ≤ (jsSplitOn ' ' (jsTrim r.contactName).data).length) ∧
    ((validateContact r).contactName = none ∨
      (validateContact r).contactName = some "Please enter at least first and last name") ∧
    (validateContact { exampleRecord with contactName := "" }).contactName =
      some "Please enter at least first and last name" ∧
    (validateContact { exampleRecord with contactName := "Jane Doe" }).contactName = none ∧
    (validateContact { exampleRecord with contactName := "Jane" }).contactName =
      some "Please enter at least first and last name" ∧
    (validateContact { exampleRecord with contactName := "  Jane   Doe  " }).contactName = none := by
  have hiff : fullNameTest r.contactName = true ↔
      r.contactName ≠ "" ∧ 2 ≤ (jsSplitOn ' ' (jsTrim r.contactName).data).length := by
    simp [fullNameTest]
  refine ⟨?_, ?_, by decide, by decide, by decide, by decide⟩
  · rw [← hiff]
    by_cases hf : fullNameTest r.contactName
    · by_cases h : r.contactName = ""
      · exact absurd (h ▸ hf) (by decide)
      · simp [validateContact, checkContactName, hf, h]
    · simp [validateContact, checkContactName, hf]
  · by_cases hf : fullNameTest r.contactName
    · have h : r.contactName ≠ "" := fun he => absurd (he ▸ hf) (by decide)
      exact Or.inl (by simp [validateContact, checkContactName, hf, h])
    · exact Or.inr (by simp [validateContact, checkContactName, hf])

/-- C1 (amended) witness at the concrete valid contactName. -/
theorem contactName_spec_witness :
    (validateContact { exampleRecord with contactName := "Jane Doe" }).contactName = none :=
  (contactName_spec { exampleRecord with contactName := "Jane Doe" }).1.mpr (by decide)

/-- C3: for every ContactRecord, the nda field is valid iff agreedToNda is
true, and a false value yields exactly the message "You must agree to
NDA". -/
theorem nda_spec (r : ContactRecord) :
    ((validateContact r).nda = none ↔ r.agreedToNda = true) ∧
    (r.agreedToNda = false →
      (validateContact r).nda = some "You must agree to NDA") := by
  cases h : r.agreedToNda <;> simp [validateContact, checkNda, h]

/-- C3 witness at agreedToNda = false. -/
theorem nda_spec_witness :
    (validateContact { exampleRecord with agreedToNda := false }).nda =
      some "You must agree to NDA" :=
  (nda_spec { exampleRecord with agreedToNda := false }).2 rfl

/-- C5: the file field is valid when absent, valid at size exactly
10 × 1024 × 1024 bytes, and carries "File size is too large (max 10MB)"
at any size of 10 × 1024 × 1024 + 1 bytes or more. -/
theorem file_spec (r : ContactRecord) :
    (r.file = none → (validateContact r).file = none) ∧
    (r.file = some (10 * 1024 * 1024) → (validateContact r).file = none) ∧
    (∀ n, r.file = some n → 10 * 1024 * 1024 + 1 ≤ n →
      (validateContact r).file = some "File size is too large (max 10MB)") := by
  refine ⟨fun h => by simp [validateContact, checkFile, h],
          fun h => by simp [validateContact, checkFile, h],
          fun n h hn => ?_⟩
  simp only [validateContact, checkFile, h]
  rw [if_neg (by omega)]

/-- C5 witness: one byte over the limit is rejected. -/
theorem file_spec_witness :
    (validateContact { exampleRecord with file := some (10 * 1024 * 1024 + 1) }).file =
      some "File size is too large (max 10MB)" :=
  (file_spec { exampleRecord with file := some (10 * 1024 * 1024 + 1) }).2.2
    (10 * 1024 * 1024 + 1) rfl (by decide)

/-- C6: the newsletter validator accepts a present well-formed email
(including a single-letter final domain label such as "a@b.c"), yields
exactly "Email is required" on the empty string and exactly "Invalid
email" on a non-empty malformed string; the result has an email entry
only, so no other field can carry an error. -/
theorem newsletter_spec :
    (∀ rec : NewsletterRecord,
      (rec.email = "" → validateNewsletter rec = ⟨some "Email is required"⟩) ∧
      (rec.email ≠ "" → isValidEmail rec.email = true →
        validateNewsletter rec = ⟨none⟩) ∧
      (rec.email ≠ "" → isValidEmail rec.email = false →
        validateNewsletter rec = ⟨some "Invalid email"⟩)) ∧
    isValidEmail "a@b.com" = true ∧
    validateNewsletter ⟨"a@b.com"⟩ = ⟨none⟩ ∧
    isValidEmail "a@b.c" = true ∧
    validateNewsletter ⟨"a@b.c"⟩ = ⟨none⟩ ∧
    validateNewsletter ⟨""⟩ = ⟨some "Email is required"⟩ ∧
    isValidEmail "not-an-email" = false ∧
    validateNewsletter ⟨"not-an-email"⟩ = ⟨some "Invalid email"⟩ := by
  refine ⟨fun rec => ⟨fun h => ?_, fun h hv => ?_, fun h hv => ?_⟩,
          by decide, by decide, by decide, by decide, by decide, by decide, by decide⟩ <;>
    simp [validateNewsletter, *]

/-- C6 witness at the concrete well-formed address. -/
theorem newsletter_spec_witness :
    validateNewsletter ⟨"a@b.com"⟩ = ⟨none⟩ :=
  (newsletter_spec.1 ⟨"a@b.com"⟩).2.1 (by decide) (by decide)

/-- C7: the derived isValid flag is true iff every field's error entry is
absent; the specification's end-to-end record validates with an empty
error set, and the same record with companyName "A" yields exactly the
companyName length error and isValid = false. -/
theorem isValid_spec :
    (∀ v : ValidationResult, v.isValid = true ↔
      (v.companyName = none ∧ v.natureOfBusiness = none ∧ v.address = none ∧
       v.postcode = none ∧ v.contactName = none ∧ v.contactPhone = none ∧
       v.email = none ∧ v.linkedin = none ∧ v.idea = none ∧ v.file = none ∧
       v.nda = none)) ∧
    validateContact exampleRecord =
      ⟨none, none, none, none, none, none, none, none, none, none, none⟩ ∧
    (validateContact exampleRecord).isValid = true ∧
    validateContact { exampleRecord with companyName := "A" } =
      ⟨some "Company name must be at least 2 characters",
       none, none, none, none, none, none, none, none, none, none⟩ ∧
    (validateContact { exampleRecord with companyName := "A" }).isValid = false := by
  refine ⟨fun v => ?_, by decide, by decide, by decide, by decide⟩
  simp [ValidationResult.isValid, Option.isNone_iff_eq_none, and_assoc]

/-- C7 witness: the all-absent result is flagged valid. -/
theorem isValid_spec_witness :
    (⟨none, none, none, none, none, none, none, none, none, none, none⟩ :
      ValidationResult).isValid = true :=
  (isValid_spec.1 ⟨none, none, none, none, none, none, none, none, none, none, none⟩).mpr
    ⟨rfl, rfl, rfl, rfl, rfl, rfl, rfl, rfl, rfl, rfl, rfl⟩

/-- C8: validateContact is a pure function of the input record: equal
records yield equal ValidationResults.  The embedding gives the validator
no other argument — no history of prior calls, no edit ordering, no
clock — so the result cannot depend on them. -/
theorem validateContact_deterministic (r1 r2 : ContactRecord) (h : r1 = r2) :
    validateContact r1 = validateContact r2 := by rw [h]

/-- C8 witness: two calls on the specification's end-to-end record. -/
theorem validateContact_deterministic_witness :
    validateContact exampleRecord = validateContact exampleRecord :=
  validateContact_deterministic exampleRecord exampleRecord rfl

/-- C9: validateContact is total (a Lean function) and for every record
its result covers all 11 fields: each entry is either absent or one of
that field's own messages; natureOfBusiness and linkedin are always
absent. -/
theorem validateContact_total (r : ContactRecord) :
    ((validateContact r).companyName = none ∨
     (validateContact r).companyName = some "Company name is required" ∨
     (validateContact r).companyName = some "Company name must be at least 2 characters") ∧
    (validateContact r).natureOfBusiness = none ∧
    ((validateContact r).address = none ∨
     (validateContact r).address = some "Address is required" ∨
     (validateContact r).address = some "Address must be at least 5 characters") ∧
    ((validateContact r).postcode = none ∨
     (validateContact r).postcode = some "Postcode is required" ∨
     (validateContact r).postcode = some "Postcode must be 4–10 digits") ∧
    ((validateContact r).contactName = none ∨
     (validateContact r).contactName = some "Contact name is required" ∨
     (validateContact r).contactName = some "Please enter at least first and last name") ∧
    ((validateContact r).contactPhone = none ∨
     (validateContact r).contactPhone = some "Contact phone is required" ∨
     (validateContact r).contactPhone = some "Contact phone must be at least 10 digits") ∧
    ((validateContact r).email = none ∨
     (validateContact r).email = some "Email is required" ∨
     (validateContact r).email = some "Invalid email address") ∧
    (validateContact r).linkedin = none ∧
    ((validateContact r).idea = none ∨
     (validateContact r).idea = some "Idea is required" ∨
     (validateContact r).idea = some "Idea description must be at least 30 characters") ∧
    ((validateContact r).file = none ∨
     (validateContact r).file = some "File size is too large (max 10MB)") ∧
    ((validateContact r).nda = none ∨
     (validateContact r).nda = some "You must agree to NDA") := by
  refine ⟨?_, rfl, ?_, ?_, ?_, ?_, ?_, rfl, ?_, ?_, ?_⟩
  · by_cases hp : 2 ≤ utf16Length r.companyName <;> by_cases h : r.companyName = "" <;>
      simp [validateContact, checkCompanyName, hp, h] <;> decide
  · by_cases hp : 5 ≤ utf16Length r.address <;> by_cases h : r.address = "" <;>
      simp [validateContact, checkAddress, hp, h] <;> decide
  · by_cases hp : postcodePattern r.postcode <;> by_cases h : r.postcode = "" <;>
      simp [validateContact, checkPostcode, hp, h]
  · by_cases hp : fullNameTest r.contactName <;> by_cases h : r.contactName = "" <;>
      simp [validateContact, checkContactName, hp, h]
  · by_cases hp : phonePattern r.contactPhone <;> by_cases h : r.contactPhone = "" <;>
      simp [validateContact, checkContactPhone, hp, h]
  · by_cases h : r.email = "" <;> by_cases hp : isValidEmail r.email <;>
      simp [validateContact, checkEmail, h, hp]
  · by_cases hp : 30 ≤ utf16Length r.idea <;> by_cases h : r.idea = "" <;>
      simp [validateContact, checkIdea, hp, h] <;> decide
  · cases hf : r.file with
    | none => simp [validateContact, checkFile, hf]
    | some n =>
      by_cases hs : n ≤ 10 * 1024 * 1024 <;> simp [validateContact, checkFile, hf, hs]
  · cases hb : r.agreedToNda <;> simp [validateContact, checkNda, hb]

/-- C9 witness at the end-to-end record. -/
theorem validateContact_total_witness :
    (validateContact exampleRecord).natureOfBusiness = none :=
  (validateContact_total exampleRecord).2.1

